import Mathlib

/-!
Verification of the client-side state container in `src/AppProvider.tsx`
(tasks-fe). The reducer, the initial state, the api object literal and the
`useAppContext` accessor are shallowly embedded; the per-operation network
round trip (`await axios...; dispatch(...)`) is embedded as a function from
the call's result (`Except ApiError _`) and the prior state to an
`Except ApiError AppState`, mirroring the fact that a rejected promise
skips the dispatch.
-/

namespace TasksFE

/-- Embeds `TaskList` (src/domain/TaskList): server-assigned string id plus
descriptive fields, opaque here beyond `name`. -/
structure TaskList where
  id : String
  name : String
deriving DecidableEq, Repr

/-- Embeds `Task` (src/domain/Task): string id plus descriptive fields, opaque
here beyond `title`. -/
structure Task where
  id : String
  title : String
deriving DecidableEq, Repr

/-- Embeds `AppState` (AppProvider.tsx lines 9-12): the snapshot. The TS object
`tasks : { [taskListId: string]: Task[] }` is embedded as a function to
`Option (List Task)`; `none` is a key holding no array (absent or set to
`undefined`). -/
structure AppState where
  taskLists : List TaskList
  tasks : String → Option (List Task)

/-- The `Action` tagged union (AppProvider.tsx lines 26-36). -/
inductive Action where
  | fetchTaskLists (payload : List TaskList)
  | getTaskList (payload : TaskList)
  | createTaskList (payload : TaskList)
  | updateTaskList (payload : TaskList)
  | deleteTaskList (payload : String)
  | fetchTasks (taskListId : String) (tasks : List Task)
  | createTask (taskListId : String) (task : Task)
  | getTask (taskListId : String) (task : Task)
  | updateTask (taskListId : String) (taskId : String) (task : Task)
  | deleteTask (taskListId : String) (taskId : String)
deriving Repr

/-- The reducer (AppProvider.tsx lines 39-100), case by case.

* `GET_TASK` embeds `state.tasks[listId]?.map(...) || [task]`: when the key
  holds an array the `map` result (an array, hence truthy even when empty)
  is kept, so the `|| [task]` fallback fires only when the key is absent.
* `UPDATE_TASK` / `DELETE_TASK` embed `state.tasks[listId]?.map(...)` /
  `?.filter(...)`: an absent key stays valueless (`undefined`). -/
def reducer (state : AppState) (action : Action) : AppState :=
  match action with
  | .fetchTaskLists payload => { state with taskLists := payload }
  | .getTaskList payload =>
      { state with taskLists :=
          if state.taskLists.any (fun tl => tl.id == payload.id) then
            state.taskLists.map (fun tl => if tl.id == payload.id then payload else tl)
          else
            state.taskLists ++ [payload] }
  | .createTaskList payload => { state with taskLists := state.taskLists ++ [payload] }
  | .updateTaskList payload =>
      { state with taskLists :=
          state.taskLists.map (fun tl => if tl.id == payload.id then payload else tl) }
  | .deleteTaskList payload =>
      { state with taskLists := state.taskLists.filter (fun tl => tl.id != payload) }
  | .fetchTasks taskListId ts =>
      { state with tasks := fun k => if k == taskListId then some ts else state.tasks k }
  | .createTask taskListId task =>
      { state with tasks := fun k =>
          if k == taskListId then some ((state.tasks taskListId).getD [] ++ [task])
          else state.tasks k }
  | .getTask taskListId task =>
      { state with tasks := fun k =>
          (if k == taskListId then
            some ((state.tasks taskListId).elim [task]
              (fun ts => ts.map (fun t => if t.id == task.id then task else t)))
          else state.tasks k) }
  | .updateTask taskListId taskId task =>
      { state with tasks := fun k =>
          (if k == taskListId then
            (state.tasks taskListId).map
              (fun ts => ts.map (fun t => if t.id == taskId then task else t))
          else state.tasks k) }
  | .deleteTask taskListId taskId =>
      { state with tasks := fun k =>
          (if k == taskListId then
            (state.tasks taskListId).map (fun ts => ts.filter (fun t => t.id != taskId))
          else state.tasks k) }

/-- Embeds `initialState` (AppProvider.tsx lines 103-106). -/
def initialState : AppState :=
  { taskLists := [], tasks := fun _ => none }

/-- The error taxonomy of the network layer: transport failure or non-2xx
HTTP status (axios rejects on both). -/
inductive ApiError where
  | network
  | httpStatus (code : Nat)
deriving DecidableEq, Repr

/-- Embeds `api.fetchTaskLists` (lines 134-137): `await` the GET, then dispatch
`FETCH_TASKLISTS`; a rejected call skips the dispatch. -/
def fetchTaskListsImpl (resp : Except ApiError (List TaskList)) (s : AppState) :
    Except ApiError AppState :=
  resp.map (fun data => reducer s (.fetchTaskLists data))

/-- Embeds `api.getTaskList` (lines 138-141): `await` the GET of one list, then
dispatch `GET_TASKLIST` with the response body. -/
def getTaskListImpl (_id : String) (resp : Except ApiError TaskList) (s : AppState) :
    Except ApiError AppState :=
  resp.map (fun data => reducer s (.getTaskList data))

/-- Embeds `api.createTaskList` (lines 142-145): `await` the POST, then dispatch
`CREATE_TASKLIST` with the server-returned list. -/
def createTaskListImpl (resp : Except ApiError TaskList) (s : AppState) :
    Except ApiError AppState :=
  resp.map (fun data => reducer s (.createTaskList data))

/-- Embeds `api.updateTaskList` (lines 146-149): `await` the PUT, then dispatch
`UPDATE_TASKLIST` with the response body. -/
def updateTaskListImpl (_id : String) (resp : Except ApiError TaskList) (s : AppState) :
    Except ApiError AppState :=
  resp.map (fun data => reducer s (.updateTaskList data))

/-- Embeds `api.deleteTaskList` (lines 150-153): `await` the DELETE (body unused),
then dispatch `DELETE_TASKLIST` with the id argument. -/
def deleteTaskListImpl (id : String) (resp : Except ApiError Unit) (s : AppState) :
    Except ApiError AppState :=
  resp.map (fun _ => reducer s (.deleteTaskList id))

/-- Embeds `api.fetchTasks` (lines 154-157): `await` the GET of a list's tasks,
then dispatch `FETCH_TASKS`. -/
def fetchTasksImpl (taskListId : String) (resp : Except ApiError (List Task)) (s : AppState) :
    Except ApiError AppState :=
  resp.map (fun data => reducer s (.fetchTasks taskListId data))

/-- Repeated successful `fetchTaskLists` calls: dispatch `FETCH_TASKLISTS`
once per response, in order. -/
def applyFetchTaskLists (s : AppState) (resps : List (List TaskList)) : AppState :=
  resps.foldl (fun st r => reducer st (.fetchTaskLists r)) s

/-- The api surface declared by `AppContextType` (AppProvider.tsx lines
109-122), as an object whose properties may be undefined (`none`): in JS,
reading a property the object literal never defined yields `undefined`.
Each defined property is the per-operation round-trip function. -/
structure Api where
  fetchTaskLists : Option (Except ApiError (List TaskList) → AppState → Except ApiError AppState)
  getTaskList : Option (String → Except ApiError TaskList → AppState → Except ApiError AppState)
  createTaskList : Option (Except ApiError TaskList → AppState → Except ApiError AppState)
  updateTaskList : Option (String → Except ApiError TaskList → AppState → Except ApiError AppState)
  deleteTaskList : Option (String → Except ApiError Unit → AppState → Except ApiError AppState)
  fetchTasks : Option (String → Except ApiError (List Task) → AppState → Except ApiError AppState)
  createTask : Option (String → Except ApiError Task → AppState → Except ApiError AppState)
  updateTask : Option (String → String → Except ApiError Task → AppState → Except ApiError AppState)
  deleteTask : Option (String → String → Except ApiError Unit → AppState → Except ApiError AppState)

/-- The `api` object literal (AppProvider.tsx lines 133-158): its
properties are `fetchTaskLists`, `getTaskList`, `createTaskList`,
`updateTaskList`, `deleteTaskList` and `fetchTasks`. The object defines no
`createTask`, `updateTask` or `deleteTask` property, although
`AppContextType` declares them, so those reads yield `undefined`. -/
def api : Api where
  fetchTaskLists := some fetchTaskListsImpl
  getTaskList := some getTaskListImpl
  createTaskList := some createTaskListImpl
  updateTaskList := some updateTaskListImpl
  deleteTaskList := some deleteTaskListImpl
  fetchTasks := some fetchTasksImpl
  createTask := none
  updateTask := none
  deleteTask := none

/-- Outcome of invoking a possibly-undefined object property as a
function: in JS, calling `undefined` raises a TypeError at the call site. -/
inductive CallResult (α : Type) where
  | typeError
  | returns (value : α)

/-- Invoke a possibly-undefined property with its first argument. -/
def callField {α β : Type} (f : Option (α → β)) (arg : α) : CallResult β :=
  match f with
  | none => CallResult.typeError
  | some g => CallResult.returns (g arg)

/-- Embeds `AppContextType` (AppProvider.tsx lines 109-122): the snapshot
plus the api surface, as provided to `AppContext.Provider`. -/
structure AppContextType where
  state : AppState
  api : Api

/-- Embeds `useAppContext` (AppProvider.tsx lines 167-171): `useContext`
yields `none` outside a provider (React's default value is `undefined`),
in which case the accessor throws synchronously; inside a provider it
returns the context value. -/
def useAppContext (ctx : Option AppContextType) : Except String AppContextType :=
  match ctx with
  | none => Except.error "useAppContext must be used within an AppProvider"
  | some c => Except.ok c

/-! Sample entities and snapshots used for concrete evaluation. -/

/-- Sample task list with id "A". -/
def tlA : TaskList := ⟨"A", "Work"⟩

/-- Sample task list with id "B". -/
def tlB : TaskList := ⟨"B", "Home"⟩

/-- Sample task list sharing id "A" with `tlA` but with a new name. -/
def tlA2 : TaskList := ⟨"A", "New"⟩

/-- Sample task with id "t1". -/
def tA : Task := ⟨"t1", "alpha"⟩

/-- Sample task with id "t2". -/
def tB : Task := ⟨"t2", "beta"⟩

/-- Sample task sharing id "t1" with `tA` but with a new title. -/
def tC : Task := ⟨"t1", "gamma"⟩

/-- Sample snapshot: two task lists, and list "L" already fetched with one
task. -/
def sampleState : AppState :=
  { taskLists := [tlA, tlB], tasks := fun k => if k == "L" then some [tA] else none }

/-! Helper lemmas about the replace-by-id map and the remove-by-id filter. -/

/-- Mapping a replace-by-key function over a list in which no element
carries the key leaves the list unchanged. -/
theorem map_replace_of_no_match {α : Type} (key : α → String) (kid : String)
    (y : α) (l : List α) (h : ∀ x ∈ l, key x ≠ kid) :
    l.map (fun x => if key x == kid then y else x) = l := by
  induction l with
  | nil => rfl
  | cons a as ih =>
    have ha : ¬ ((key a == kid) = true) := by
      simpa using h a (List.mem_cons_self a as)
    simp only [List.map_cons, if_neg ha]
    rw [ih (fun x hx => h x (List.mem_cons_of_mem a hx))]

/-- Filtering out a key that no element carries leaves the list
unchanged. -/
theorem filter_keep_of_no_match {α : Type} (key : α → String) (kid : String)
    (l : List α) (h : ∀ x ∈ l, key x ≠ kid) :
    l.filter (fun x => key x != kid) = l := by
  apply List.filter_eq_self.mpr
  intro a ha
  simpa using h a ha

/-! Theorems settling the claims. -/

/-- C2: for every mutator operation, if the network call rejects (transport
failure or non-2xx HTTP status), the operation rejects to the caller and no
state transition is applied — the snapshot keeps its prior value; in
particular `createTaskList` against HTTP 500 rejects and leaves the state
untouched. -/
theorem mutatorError_rejects_without_transition (e : ApiError) (s : AppState)
    (id taskListId : String) :
    fetchTaskListsImpl (Except.error e) s = Except.error e
    ∧ getTaskListImpl id (Except.error e) s = Except.error e
    ∧ createTaskListImpl (Except.error e) s = Except.error e
    ∧ updateTaskListImpl id (Except.error e) s = Except.error e
    ∧ deleteTaskListImpl id (Except.error e) s = Except.error e
    ∧ fetchTasksImpl taskListId (Except.error e) s = Except.error e
    ∧ createTaskListImpl (Except.error (ApiError.httpStatus 500)) s
        = Except.error (ApiError.httpStatus 500) :=
  ⟨rfl, rfl, rfl, rfl, rfl, rfl, rfl⟩

/-- C3: after any sequence of successful `fetchTaskLists` calls, the
`taskLists` sequence equals exactly the last server response — a full
replacement, with no accumulation from the prior state or earlier calls. -/
theorem fetchTaskLists_full_replace (s : AppState)
    (earlier : List (List TaskList)) (lastResp : List TaskList) :
    (applyFetchTaskLists s (earlier ++ [lastResp])).taskLists = lastResp := by
  unfold applyFetchTaskLists
  rw [List.foldl_append]
  rfl

/-- C8: `useAppContext` outside the provider's scope raises the usage error
synchronously rather than returning a value; inside the scope it returns
the context (snapshot plus operations). -/
theorem useAppContext_fails_loudly_outside_scope (c : AppContextType) :
    useAppContext none
        = Except.error "useAppContext must be used within an AppProvider"
    ∧ useAppContext (some c) = Except.ok c :=
  ⟨rfl, rfl⟩

/-- C9: the provided `api` object implements exactly `fetchTaskLists`,
`getTaskList`, `createTaskList`, `updateTaskList`, `deleteTaskList` and
`fetchTasks`; the task-level mutators declared by `AppContextType`
(`createTask`, `updateTask`, `deleteTask`) are undefined on it, so invoking
them through the context raises a runtime type error. -/
theorem api_taskMutators_undefined (taskListId : String) :
    api.fetchTaskLists = some fetchTaskListsImpl
    ∧ api.getTaskList = some getTaskListImpl
    ∧ api.createTaskList = some createTaskListImpl
    ∧ api.updateTaskList = some updateTaskListImpl
    ∧ api.deleteTaskList = some deleteTaskListImpl
    ∧ api.fetchTasks = some fetchTasksImpl
    ∧ api.createTask = none
    ∧ api.updateTask = none
    ∧ api.deleteTask = none
    ∧ callField api.createTask taskListId = CallResult.typeError
    ∧ callField api.updateTask taskListId = CallResult.typeError
    ∧ callField api.deleteTask taskListId = CallResult.typeError :=
  ⟨rfl, rfl, rfl, rfl, rfl, rfl, rfl, rfl, rfl, rfl, rfl, rfl⟩

/-- C4: `getTaskList` upserts the fetched list into `taskLists`: when an
entry with the same id pre-exists, the length is unchanged and exactly the
matching entries are replaced in place (all others kept, order preserved);
when no entry matches, the result is the old sequence with the new entry
appended at the end, one longer. -/
theorem getTaskList_upsert (s : AppState) (p : TaskList) :
    ((∃ tl ∈ s.taskLists, tl.id = p.id) →
      (reducer s (.getTaskList p)).taskLists.length = s.taskLists.length
      ∧ (reducer s (.getTaskList p)).taskLists
          = s.taskLists.map (fun tl => if tl.id == p.id then p else tl))
    ∧ ((∀ tl ∈ s.taskLists, tl.id ≠ p.id) →
      (reducer s (.getTaskList p)).taskLists = s.taskLists ++ [p]
      ∧ (reducer s (.getTaskList p)).taskLists.length = s.taskLists.length + 1) := by
  constructor
  · rintro ⟨tl, htl, hid⟩
    have hany : s.taskLists.any (fun tl => tl.id == p.id) = true :=
      List.any_eq_true.mpr ⟨tl, htl, by simpa using hid⟩
    simp [reducer, hany]
  · intro h
    have hany : s.taskLists.any (fun tl => tl.id == p.id) = false := by
      simp only [List.any_eq_false]
      intro tl htl
      simpa using h tl htl
    simp [reducer, hany]

/-- C4 witness: concrete evaluation of both branches of
`getTaskList_upsert`. -/
theorem getTaskList_upsert_witness :
    ((∃ tl ∈ ([tlA, tlB] : List TaskList), tl.id = tlA2.id)
      ∧ (reducer ⟨[tlA, tlB], fun _ => none⟩ (.getTaskList tlA2)).taskLists.length
          = ([tlA, tlB] : List TaskList).length
      ∧ (reducer ⟨[tlA, tlB], fun _ => none⟩ (.getTaskList tlA2)).taskLists
          = ([tlA, tlB] : List TaskList).map
              (fun tl => if tl.id == tlA2.id then tlA2 else tl))
    ∧ ((∀ tl ∈ ([tlB] : List TaskList), tl.id ≠ tlA2.id)
      ∧ (reducer ⟨[tlB], fun _ => none⟩ (.getTaskList tlA2)).taskLists
          = ([tlB] : List TaskList) ++ [tlA2]
      ∧ (reducer ⟨[tlB], fun _ => none⟩ (.getTaskList tlA2)).taskLists.length
          = ([tlB] : List TaskList).length + 1) :=
  ⟨⟨by decide, (getTaskList_upsert ⟨[tlA, tlB], fun _ => none⟩ tlA2).1 (by decide)⟩,
   ⟨by decide, (getTaskList_upsert ⟨[tlB], fun _ => none⟩ tlA2).2 (by decide)⟩⟩

/-- C5: updates with an unknown id are silent no-ops: `updateTaskList` with
an id matching no entry leaves `taskLists` unchanged, and `updateTask` with
a taskId matching no task of a fetched list leaves that list's task
sequence unchanged. -/
theorem update_unknown_id_noop (s : AppState) (p : TaskList)
    (listId taskId : String) (t : Task) (ts : List Task) :
    ((∀ tl ∈ s.taskLists, tl.id ≠ p.id) →
      (reducer s (.updateTaskList p)).taskLists = s.taskLists)
    ∧ (s.tasks listId = some ts → (∀ x ∈ ts, x.id ≠ taskId) →
      (reducer s (.updateTask listId taskId t)).tasks listId = some ts) := by
  constructor
  · intro h
    simpa [reducer] using
      map_replace_of_no_match (fun tl => tl.id) p.id p s.taskLists h
  · intro hsome h
    have hproj : (reducer s (.updateTask listId taskId t)).tasks listId
        = (s.tasks listId).map
            (fun l => l.map (fun x => if x.id == taskId then t else x)) := by
      simp [reducer]
    rw [hproj, hsome, Option.map_some']
    rw [map_replace_of_no_match (fun x => x.id) taskId t ts h]

/-- C5 witness: concrete evaluation of both no-op branches of
`update_unknown_id_noop`. -/
theorem update_unknown_id_noop_witness :
    ((∀ tl ∈ sampleState.taskLists, tl.id ≠ "Z")
      ∧ (reducer sampleState (.updateTaskList ⟨"Z", "zzz"⟩)).taskLists
          = sampleState.taskLists)
    ∧ (sampleState.tasks "L" = some [tA]
      ∧ (∀ x ∈ ([tA] : List Task), x.id ≠ "t9")
      ∧ (reducer sampleState (.updateTask "L" "t9" tB)).tasks "L" = some [tA]) :=
  ⟨⟨by decide,
    (update_unknown_id_noop sampleState ⟨"Z", "zzz"⟩ "L" "t9" tB [tA]).1 (by decide)⟩,
   ⟨by decide, by decide,
    (update_unknown_id_noop sampleState ⟨"Z", "zzz"⟩ "L" "t9" tB [tA]).2
      (by decide) (by decide)⟩⟩

/-- C7: `createTask` appends exactly the server-returned task at the end of
`tasksByListId[listId]`, creating the key with a singleton sequence when it
was absent; every other key of the task map and the `taskLists` sequence
are unchanged. -/
theorem createTask_appends (s : AppState) (listId : String) (t : Task) :
    (reducer s (.createTask listId t)).tasks listId
        = some ((s.tasks listId).getD [] ++ [t])
    ∧ (s.tasks listId = none →
        (reducer s (.createTask listId t)).tasks listId = some [t])
    ∧ (∀ k, k ≠ listId → (reducer s (.createTask listId t)).tasks k = s.tasks k)
    ∧ (reducer s (.createTask listId t)).taskLists = s.taskLists := by
  refine ⟨by simp [reducer], ?_, ?_, rfl⟩
  · intro h
    simp [reducer, h]
  · intro k hk
    simp [reducer, hk]

/-- C7 witness: concrete evaluation of `createTask_appends`, covering the
absent-key singleton case and the frame condition on another key. -/
theorem createTask_appends_witness :
    (initialState.tasks "L" = none
      ∧ (reducer initialState (.createTask "L" tB)).tasks "L" = some [tB])
    ∧ (("M" : String) ≠ "L"
      ∧ (reducer sampleState (.createTask "L" tB)).tasks "M"
          = sampleState.tasks "M") :=
  ⟨⟨rfl, (createTask_appends initialState "L" tB).2.1 rfl⟩,
   ⟨by decide, (createTask_appends sampleState "L" tB).2.2.1 "M" (by decide)⟩⟩

/-- C10: when `tasksByListId` holds no sequence for `listId`, the
`UPDATE_TASK` and `DELETE_TASK` transitions leave the key holding no
sequence (undefined/none), whereas `CREATE_TASK` creates the key with a
singleton sequence. -/
theorem updateDeleteTask_absentKey (s : AppState) (listId taskId : String)
    (t : Task) (h : s.tasks listId = none) :
    (reducer s (.updateTask listId taskId t)).tasks listId = none
    ∧ (reducer s (.deleteTask listId taskId)).tasks listId = none
    ∧ (reducer s (.createTask listId t)).tasks listId = some [t] := by
  refine ⟨?_, ?_, ?_⟩ <;> simp [reducer, h]

/-- C10 witness: concrete evaluation of `updateDeleteTask_absentKey` from
the initial state, whose task map is empty. -/
theorem updateDeleteTask_absentKey_witness :
    initialState.tasks "L" = none
    ∧ ((reducer initialState (.updateTask "L" "t9" tB)).tasks "L" = none
      ∧ (reducer initialState (.deleteTask "L" "t9")).tasks "L" = none
      ∧ (reducer initialState (.createTask "L" tB)).tasks "L" = some [tB]) :=
  ⟨rfl, updateDeleteTask_absentKey initialState "L" "t9" tB rfl⟩

/-- C6: with unique list ids and a matching entry present,
`deleteTaskList id` removes exactly that one entry (the remainder is the
surrounding entries in their original order) and leaves the whole task map
unchanged — the deleted list's task sequence stays orphaned under its
key. -/
theorem deleteTaskList_removesOne_framesTasks (s : AppState) (id : String)
    (hu : s.taskLists.Pairwise (fun a b => a.id ≠ b.id))
    (hmem : ∃ tl ∈ s.taskLists, tl.id = id) :
    (∃ pre tl post, tl.id = id ∧ s.taskLists = pre ++ tl :: post
      ∧ (reducer s (.deleteTaskList id)).taskLists = pre ++ post)
    ∧ (reducer s (.deleteTaskList id)).tasks = s.tasks := by
  obtain ⟨tl, htl, hid⟩ := hmem
  obtain ⟨pre, post, hsplit⟩ := List.append_of_mem htl
  refine ⟨⟨pre, tl, post, hid, hsplit, ?_⟩, rfl⟩
  have hred : (reducer s (.deleteTaskList id)).taskLists
      = s.taskLists.filter (fun x => x.id != id) := rfl
  rw [hred, hsplit, List.filter_append]
  rw [hsplit, List.pairwise_append] at hu
  obtain ⟨hpre, hcons, hcross⟩ := hu
  have h1 : pre.filter (fun x => x.id != id) = pre := by
    apply filter_keep_of_no_match (fun x => x.id) id pre
    intro a ha
    have := hcross a ha tl (List.mem_cons_self tl post)
    rw [hid] at this
    exact this
  have h2 : (tl :: post).filter (fun x => x.id != id) = post := by
    rw [List.filter_cons]
    have htlid : (tl.id != id) = false := by simp [hid]
    rw [htlid]
    simp only [Bool.false_eq_true, if_false]
    apply filter_keep_of_no_match (fun x => x.id) id post
    intro a ha
    have hne : tl.id ≠ a.id := (List.pairwise_cons.mp hcons).1 a ha
    rw [hid] at hne
    exact hne.symm
  rw [h1, h2]

/-- C6 witness: concrete evaluation of `deleteTaskList_removesOne_framesTasks`
on a two-list snapshot with list "L" fetched. -/
theorem deleteTaskList_removesOne_witness :
    (sampleState.taskLists.Pairwise (fun a b => a.id ≠ b.id)
      ∧ (∃ tl ∈ sampleState.taskLists, tl.id = "A"))
    ∧ ((∃ pre tl post, tl.id = "A" ∧ sampleState.taskLists = pre ++ tl :: post
        ∧ (reducer sampleState (.deleteTaskList "A")).taskLists = pre ++ post)
      ∧ (reducer sampleState (.deleteTaskList "A")).tasks = sampleState.tasks) :=
  ⟨⟨by decide, by decide⟩,
   deleteTaskList_removesOne_framesTasks sampleState "A" (by decide) (by decide)⟩

/-- C1 counterexample: the claim says `getTask` appends the fetched task
when no task with its id is present, as `getTaskList` does for lists. On
the snapshot whose list "L" holds only the task with id "t1", fetching the
task with id "t2" leaves the sequence at exactly `[tA]`: nothing is
appended, because `state.tasks[listId]?.map(...)` returns a (truthy) array
whenever the key is present, so the `|| [task]` fallback never fires. -/
theorem getTask_noAppend_cex :
    tA.id ≠ tB.id
    ∧ sampleState.tasks "L" = some [tA]
    ∧ (reducer sampleState (.getTask "L" tB)).tasks "L" = some [tA]
    ∧ (reducer sampleState (.getTask "L" tB)).tasks "L"
        ≠ some ((sampleState.tasks "L").getD [] ++ [tB]) :=
  ⟨by decide, by decide, by decide, by decide⟩

/-- C1 (amended): the task-level transitions behave as follows.
`createTask` appends the task (mirroring `CREATE_TASKLIST`); `updateTask`
replaces tasks matching the id in place (mirroring `UPDATE_TASKLIST`);
`deleteTask` removes tasks matching the id (mirroring `DELETE_TASKLIST`);
but `getTask` is not a full upsert: when the list's key is present it
replaces a task with a matching id in place and is a no-op when no task
matches (no append), and only when the key is absent does it set the entry
to the singleton fetched task. -/
theorem taskOps_semantics (s : AppState) (listId taskId : String) (t : Task)
    (ts : List Task) :
    ((reducer s (.createTask listId t)).tasks listId
        = some ((s.tasks listId).getD [] ++ [t]))
    ∧ (s.tasks listId = some ts →
        (reducer s (.getTask listId t)).tasks listId
          = some (ts.map (fun x => if x.id == t.id then t else x)))
    ∧ (s.tasks listId = some ts → (∀ x ∈ ts, x.id ≠ t.id) →
        (reducer s (.getTask listId t)).tasks listId = some ts)
    ∧ (s.tasks listId = none →
        (reducer s (.getTask listId t)).tasks listId = some [t])
    ∧ (s.tasks listId = some ts →
        (reducer s (.updateTask listId taskId t)).tasks listId
          = some (ts.map (fun x => if x.id == taskId then t else x)))
    ∧ (s.tasks listId = some ts →
        (reducer s (.deleteTask listId taskId)).tasks listId
          = some (ts.filter (fun x => x.id != taskId))) := by
  refine ⟨by simp [reducer], ?_, ?_, ?_, ?_, ?_⟩
  · intro hsome
    simp [reducer, hsome]
  · intro hsome h
    have hproj : (reducer s (.getTask listId t)).tasks listId
        = some (ts.map (fun x => if x.id == t.id then t else x)) := by
      simp [reducer, hsome]
    rw [hproj, map_replace_of_no_match (fun x => x.id) t.id t ts h]
  · intro hnone
    simp [reducer, hnone]
  · intro hsome
    simp [reducer, hsome]
  · intro hsome
    simp [reducer, hsome]

/-- C1 witness: concrete evaluation of `taskOps_semantics` on the sample
snapshot, covering the replace, no-match no-op, absent-key singleton,
update and delete cases. -/
theorem taskOps_semantics_witness :
    (sampleState.tasks "L" = some [tA]
      ∧ (reducer sampleState (.getTask "L" tC)).tasks "L"
          = some (([tA] : List Task).map (fun x => if x.id == tC.id then tC else x)))
    ∧ ((∀ x ∈ ([tA] : List Task), x.id ≠ tB.id)
      ∧ (reducer sampleState (.getTask "L" tB)).tasks "L" = some [tA])
    ∧ (initialState.tasks "L" = none
      ∧ (reducer initialState (.getTask "L" tB)).tasks "L" = some [tB])
    ∧ ((reducer sampleState (.updateTask "L" "t1" tB)).tasks "L"
        = some (([tA] : List Task).map (fun x => if x.id == "t1" then tB else x)))
    ∧ ((reducer sampleState (.deleteTask "L" "t1")).tasks "L"
        = some (([tA] : List Task).filter (fun x => x.id != "t1"))) :=
  ⟨⟨by decide, (taskOps_semantics sampleState "L" "t1" tC [tA]).2.1 (by decide)⟩,
   ⟨by decide, (taskOps_semantics sampleState "L" "t1" tB [tA]).2.2.1
      (by decide) (by decide)⟩,
   ⟨rfl, (taskOps_semantics initialState "L" "t1" tB [tA]).2.2.2.1 rfl⟩,
   (taskOps_semantics sampleState "L" "t1" tB [tA]).2.2.2.2.1 (by decide),
   (taskOps_semantics sampleState "L" "t1" tB [tA]).2.2.2.2.2 (by decide)⟩

end TasksFE
